import Mathlib

/-!
Verification development for the LS_VI_Strategy_v02 repository.

This file gives a shallow embedding of the streaming-session and
subscription-bookkeeping core of the repository and proves properties
of the embedded operations.  The embedded functions are translated from:

  src/api/realtime/websocket/websocket_manager.py  (WebSocketManager)
  src/api/realtime/websocket/websocket_client.py   (WebSocketClient)
  src/api/realtime/websocket/websocket_base.py     (RetryManager, BaseWebSocket)
  src/api/realtime/vi/vi_handler.py                (VIHandler)
  src/api/realtime/vi/vi_manager.py                (VIManager)
  src/services/service_monitor_vi.py               (VIMonitorService)
  src/services/service_monitor_vi_ccld.py          (VICCLDMonitorService)
  src/strategy/strategy_VI.py                      (process_vi_data)

Wall-clock instants are modelled as integers (seconds); Python dicts are
modelled as insertion-ordered association lists whose operations mirror
dict lookup, in-place update / append, and deletion; network sends are
returned explicitly as lists of wire messages; a Python exception that
escapes a modelled function is returned as an explicit flag or error value.
-/

/-- Model of Python dict lookup: first (and, for a genuine dict, only)
binding of the key in the insertion-ordered association list. -/
def dictLookup {V : Type} (k : String) : List (String × V) → Option V
  | [] => none
  | (k₀, v₀) :: rest => if k₀ = k then some v₀ else dictLookup k rest

/-- Model of Python dict item assignment: update the value in place when the
key is present, otherwise append the new binding at the end (dicts preserve
insertion order). -/
def dictInsert {V : Type} (k : String) (v : V) : List (String × V) → List (String × V)
  | [] => [(k, v)]
  | (k₀, v₀) :: rest => if k₀ = k then (k, v) :: rest else (k₀, v₀) :: dictInsert k v rest

/-- Model of Python dict deletion: drop the binding of the key, if any. -/
def dictErase {V : Type} (k : String) : List (String × V) → List (String × V)
  | [] => []
  | (k₀, v₀) :: rest => if k₀ = k then rest else (k₀, v₀) :: dictErase k rest

/-- Model of the Python membership test on a dict. -/
def dictContains {V : Type} (k : String) (d : List (String × V)) : Bool :=
  (dictLookup k d).isSome

/-- Model of the Python str.startswith test. -/
def strStartsWith (s p : String) : Bool := p.data.isPrefixOf s.data

/-- Helper for the model of str.split: split a character list at every
occurrence of the separator character. -/
def splitCharList (sep : Char) : List Char → List (List Char)
  | [] => [[]]
  | c :: cs =>
    match splitCharList sep cs with
    | [] => [[]]
    | p :: ps => if c = sep then [] :: p :: ps else (c :: p) :: ps

/-- Model of the Python expression s.split of a string at the underscore
separator, as used on subscription keys in WebSocketManager. -/
def pySplitUnderscore (s : String) : List String :=
  (splitCharList '_' s.data).map String.mk

/-- Wire envelope produced by WebSocketManager.subscribe / unsubscribe
(websocket_manager.py): header token and tr_type, body tr_cd and tr_key. -/
structure WireMessage where
  token : String
  trType : String
  trCd : String
  trKey : String
deriving DecidableEq, Repr

/-- Choice of tr_type for a subscribe request (websocket_manager.py,
subscribe): default "1", "1" for SC order channels, "3" for VI_ channels. -/
def subscriptionTrType (trCode : String) : String :=
  if strStartsWith trCode "SC" then "1"
  else if strStartsWith trCode "VI_" then "3"
  else "1"

/-- Choice of tr_type for an unsubscribe request (websocket_manager.py,
unsubscribe): default "2", "2" for SC order channels, "4" for VI_ channels. -/
def unsubscribeTrType (trCode : String) : String :=
  if strStartsWith trCode "SC" then "2"
  else if strStartsWith trCode "VI_" then "4"
  else "2"

/-- Subscription record stored in WebSocketManager.subscriptions: the
outbound request message, the (single) callback, and the subscribe time.
Callbacks are identified by an abstract numeric identity. -/
structure SubscriptionRecord where
  message : WireMessage
  callback : Nat
  subscribeTime : Int
deriving DecidableEq, Repr

/-- State of a WebSocketManager relevant to subscription bookkeeping:
the auth token from the config, the insertion-ordered subscriptions dict
keyed by the formatted subscription key, and the is_running flag. -/
structure ManagerState where
  token : String
  subscriptions : List (String × SubscriptionRecord)
  isRunning : Bool
deriving DecidableEq, Repr

/-- Subscription key as formatted in websocket_manager.py: the f-string
joining tr_code and tr_key with an underscore. -/
def subscriptionKey (trCode trKey : String) : String := trCode ++ "_" ++ trKey

/-- Subscribe request message built by WebSocketManager.subscribe. -/
def subscribeMessage (token trCode trKey : String) : WireMessage :=
  { token := token, trType := subscriptionTrType trCode, trCd := trCode, trKey := trKey }

/-- Unsubscribe request message built by WebSocketManager.unsubscribe. -/
def unsubscribeMessage (token trCode trKey : String) : WireMessage :=
  { token := token, trType := unsubscribeTrType trCode, trCd := trCode, trKey := trKey }

/-- Result of a call to WebSocketManager.subscribe: the manager state after
the call, the wire messages that reached the socket, and whether the call
raised an exception to the caller. -/
structure SubscribeResult where
  state : ManagerState
  sends : List WireMessage
  raised : Bool
deriving DecidableEq, Repr

/-- Model of WebSocketManager.subscribe (websocket_manager.py):
store the record under the formatted key (overwriting any existing record
for that key), then, when the client is connected, send the request; if the
send raises, delete the stored record and re-raise.  When not connected,
the record is stored and nothing is sent. -/
def managerSubscribe (st : ManagerState) (trCode trKey : String) (cb : Nat) (now : Int)
    (connected sendFails : Bool) : SubscribeResult :=
  let key := subscriptionKey trCode trKey
  let message := subscribeMessage st.token trCode trKey
  let subs₁ := dictInsert key { message := message, callback := cb, subscribeTime := now }
      st.subscriptions
  if connected then
    if sendFails then
      { state := { st with subscriptions := dictErase key subs₁ }, sends := [], raised := true }
    else
      { state := { st with subscriptions := subs₁ }, sends := [message], raised := false }
  else
    { state := { st with subscriptions := subs₁ }, sends := [], raised := false }

/-- Model of WebSocketManager.unsubscribe (websocket_manager.py): when the
key is present, send the unsubscribe request when connected (a send failure
is logged, not raised) and delete the record in the finally block; when the
key is absent, do nothing. -/
def managerUnsubscribe (st : ManagerState) (trCode trKey : String) (connected : Bool) :
    ManagerState × List WireMessage :=
  let key := subscriptionKey trCode trKey
  if dictContains key st.subscriptions then
    let message := unsubscribeMessage st.token trCode trKey
    ({ st with subscriptions := dictErase key st.subscriptions },
     if connected then [message] else [])
  else (st, [])

/-- Model of the subscription-replay loop in WebSocketManager.connect
(websocket_manager.py, the loop restoring existing subscriptions after a
successful reconnect).  For each stored subscription, the loop first
destructures key.split at underscores into exactly two variables; a key
whose split does not have exactly two parts raises ValueError outside the
per-key try block, aborting the whole replay (the outer handler logs and
re-raises).  Otherwise the stored request message is sent; a failed send is
caught per key and does not stop the loop.  Returns the messages replayed
before any abort, and whether the replay aborted with ValueError. -/
def replaySubscriptions : List (String × SubscriptionRecord) → List WireMessage × Bool
  | [] => ([], false)
  | (key, record) :: rest =>
    match pySplitUnderscore key with
    | [_, _] =>
      let r := replaySubscriptions rest
      (record.message :: r.1, r.2)
    | _ => ([], true)

/-- Outcome of a call to WebSocketManager.stop: final manager state, wire
messages sent, whether the client connection was closed, and whether the
call raised an exception. -/
structure StopOutcome where
  state : ManagerState
  sends : List WireMessage
  clientClosed : Bool
  raised : Bool
deriving DecidableEq, Repr

/-- Model of the unsubscribe-all loop in WebSocketManager.stop
(websocket_manager.py): the loop header destructures each subscription KEY
STRING (not a pair) into two variables, which in Python unpacks the string
character by character and therefore raises ValueError unless the key is
exactly two characters long; that ValueError is raised by the for statement
itself, outside the per-key try block.  For a two-character key the two
characters become tr_code and tr_key and unsubscribe is called with them. -/
def stopUnsubscribeLoop (connected : Bool) :
    ManagerState → List String → ManagerState × List WireMessage × Bool
  | st, [] => (st, [], false)
  | st, key :: rest =>
    match key.data with
    | [c₁, c₂] =>
      let r := managerUnsubscribe st (String.mk [c₁]) (String.mk [c₂]) connected
      let r₂ := stopUnsubscribeLoop connected r.1 rest
      (r₂.1, r.2 ++ r₂.2.1, r₂.2.2)
    | _ => (st, [], true)

/-- Model of WebSocketManager.stop (websocket_manager.py): return at once
when not running; otherwise clear is_running, run the unsubscribe-all loop
over the subscription keys, and — only if that loop did not raise — close
the client connection and clear the callbacks dict and the subscriptions
dict.  When the loop raises ValueError the exception propagates: the client
is not closed and the subscriptions dict keeps whatever the loop left. -/
def managerStop (st : ManagerState) (connected : Bool) : StopOutcome :=
  if !st.isRunning then
    { state := st, sends := [], clientClosed := false, raised := false }
  else
    let st₀ : ManagerState := { st with isRunning := false }
    let r := stopUnsubscribeLoop connected st₀ (st₀.subscriptions.map Prod.fst)
    if r.2.2 then
      { state := r.1, sends := r.2.1, clientClosed := false, raised := true }
    else
      { state := { r.1 with subscriptions := [] }, sends := r.2.1,
        clientClosed := true, raised := false }


/-- Per-channel callback lists of WebSocketManager (websocket_manager.py,
the callbacks dict): VI_, S3_ (KOSPI trades), K3_ (KOSDAQ trades), the
default list, and the five SC order channels.  Callbacks are identified by
abstract numeric identities. -/
structure ChannelCallbacks where
  vi : List Nat
  s3 : List Nat
  k3 : List Nat
  dflt : List Nat
  sc0 : List Nat
  sc1 : List Nat
  sc2 : List Nat
  sc3 : List Nat
  sc4 : List Nat
deriving DecidableEq, Repr

/-- Tag of an event placed on the WebSocketManager event queue. -/
inductive QueueTag
  | message
  | errorTag
  | closeTag
  | openTag
deriving DecidableEq, Repr

/-- Model of WebSocketManager handling one inbound message
(websocket_manager.py, the message handler): take tr_cd from the header,
falling back to the body when the header value is empty; when rsp_cd is
present in the header (success or not), log it and put the raw data on the
event queue as a plain message event, executing NO per-channel callbacks;
otherwise collect the per-channel callbacks for the tr_cd prefix family,
always append the default callbacks, execute them, and put the data on the
event queue as a message event.  Returns the executed callback identities
(in execution order) and the queued event tags. -/
def managerHandleMessage (cbs : ChannelCallbacks) (headerTrCd bodyTrCd : String)
    (rspCd : Option String) : List Nat × List QueueTag :=
  let trCd := if headerTrCd = "" then bodyTrCd else headerTrCd
  match rspCd with
  | some _ => ([], [QueueTag.message])
  | none =>
    let chan : List Nat :=
      if strStartsWith trCd "SC" then
        if trCd = "SC0" then cbs.sc0
        else if trCd = "SC1" then cbs.sc1
        else if trCd = "SC2" then cbs.sc2
        else if trCd = "SC3" then cbs.sc3
        else if trCd = "SC4" then cbs.sc4
        else []
      else if strStartsWith trCd "VI_" then cbs.vi
      else if strStartsWith trCd "S3_" then cbs.s3
      else if strStartsWith trCd "K3_" then cbs.k3
      else []
    (chan ++ cbs.dflt, [QueueTag.message])

/-- Handlers invoked by WebSocketClient for one inbound frame: the
registered message handlers that were called and the registered error
handlers that were called. -/
structure ClientDispatch where
  messageHandlerCalls : List Nat
  errorHandlerCalls : List Nat
deriving DecidableEq, Repr

/-- Model of the WebSocketClient inbound-message wrapper
(websocket_client.py): after JSON parsing, when the parsed object has a
header whose rsp_cd is present and differs from the success code 00000,
the frame is logged as a server error and dropped — the function returns
before reaching the registered message handlers, and the error handlers
(which are reserved for socket-level faults) are not invoked either.
Otherwise every registered message handler is invoked with the data. -/
def clientHandleMessage (messageHandlers : List Nat) (headerPresent : Bool)
    (rspCd : Option String) : ClientDispatch :=
  if headerPresent then
    match rspCd with
    | some r =>
      if r = "00000" then { messageHandlerCalls := messageHandlers, errorHandlerCalls := [] }
      else { messageHandlerCalls := [], errorHandlerCalls := [] }
    | none => { messageHandlerCalls := messageHandlers, errorHandlerCalls := [] }
  else { messageHandlerCalls := messageHandlers, errorHandlerCalls := [] }

/-- Parsed VI message body (vi_handler.py and service_monitor_vi.py):
the fields extracted from the wire body, all strings. -/
structure ViData where
  viGubun : String
  sviRecprice : String
  dviRecprice : String
  viTrgprice : String
  shcode : String
  refShcode : String
  time : String
  exchname : String
deriving DecidableEq, Repr

/-- VI type name for a vi_gubun code, as mapped in vi_handler.py and in the
VIData class of service_monitor_vi.py. -/
def viTypeName (viGubun : String) : String :=
  if viGubun = "0" then "해제"
  else if viGubun = "1" then "정적발동"
  else if viGubun = "2" then "동적발동"
  else if viGubun = "3" then "정적&동적"
  else "알수없음"

/-- Status string attached to a parsed VI message: release for vi_gubun 0,
activated otherwise (vi_handler.py and service_monitor_vi.py). -/
def viStatusOf (d : ViData) : String := if d.viGubun = "0" then "해제" else "발동"

/-- Release report produced by VIHandler when a tracked symbol releases:
the stored data, its recorded activation time, the release time, and the
computed duration in seconds. -/
structure ViReleaseReport where
  data : ViData
  activationTime : Int
  releaseTime : Int
  duration : Int
deriving DecidableEq, Repr

/-- Model of VIHandler processing one parsed VI message (vi_handler.py):
the per-symbol active map is keyed by shcode and stores the parsed data
together with the activation time.  On a release message for a tracked
symbol, build the release report with duration equal to the elapsed
seconds since the recorded activation time and delete the entry; a release
for an untracked symbol does nothing.  On an activation message the entry
for the symbol is written unconditionally with the current time as its
activation time, whether or not the symbol was already tracked. -/
def processViData (activeStocks : List (String × (ViData × Int))) (d : ViData) (now : Int) :
    List (String × (ViData × Int)) × Option ViReleaseReport :=
  if viStatusOf d = "해제" then
    match dictLookup d.shcode activeStocks with
    | some entry =>
      (dictErase d.shcode activeStocks,
       some { data := entry.1, activationTime := entry.2, releaseTime := now,
              duration := now - entry.2 })
    | none => (activeStocks, none)
  else
    (dictInsert d.shcode (d, now) activeStocks, none)

/-- Per-symbol record of the VIMonitorService active map
(service_monitor_vi.py): the VIData object with its mutable activation
time, which is None until the activation branch sets it. -/
structure MonitorViRecord where
  data : ViData
  activationTime : Option Int
deriving DecidableEq, Repr

/-- Model of the VI status update of VIMonitorService
(service_monitor_vi.py): the active map is keyed by ref_shcode.  On a
release message for a tracked symbol, report a duration of elapsed seconds
since the recorded activation time (or 0 when no activation time was
recorded) and delete the entry; a release for an untracked symbol does
nothing.  On an activation message, set the activation time to the current
time and write the entry unconditionally.  Returns the new map and the
reported duration, when a release was reported. -/
def updateViStatus (activeStocks : List (String × MonitorViRecord)) (d : ViData) (now : Int) :
    List (String × MonitorViRecord) × Option Int :=
  let stockCode := d.refShcode
  if d.viGubun = "0" then
    match dictLookup stockCode activeStocks with
    | some record =>
      (dictErase stockCode activeStocks,
       some (match record.activationTime with
             | some t₀ => now - t₀
             | none => 0))
    | none => (activeStocks, none)
  else
    (dictInsert stockCode { data := d, activationTime := some now } activeStocks, none)

/-- Model of process_vi_data of the VI strategy (strategy_VI.py):
when vi_gubun is an activation code (1, 2 or 3) and the symbol is not
already recorded as active, record the current time for it and issue a
trade-data subscribe for the symbol on its market channel; a release
message (vi_gubun 0) does nothing to the active map; every other case does
nothing.  Returns the new active map and the subscribe actions issued,
as pairs of symbol and market channel code. -/
def strategyProcessViData (viActiveStocks : List (String × Int)) (viGubun stockCode : String)
    (trCd : String) (now : Int) : List (String × Int) × List (String × String) :=
  if (viGubun = "1" || viGubun = "2" || viGubun = "3")
      && !(dictContains stockCode viActiveStocks) then
    (dictInsert stockCode now viActiveStocks, [(stockCode, trCd)])
  else
    (viActiveStocks, [])

/-- State of the VI cascade controller VICCLDMonitorService
(service_monitor_vi_ccld.py): the live per-symbol trade monitors (each
identified by a fresh numeric id so that a delayed stop targets the
monitor object that was live at release time), the next fresh id, and the
delayed stops already scheduled, as (monitor id, symbol, fire time). -/
structure CascadeState where
  monitors : List (String × Nat)
  nextId : Nat
  pendingStops : List (Nat × String × Int)
deriving DecidableEq, Repr

/-- Wire-level derived-subscription action issued by the cascade
controller, stamped with the instant at which it is issued. -/
inductive WireAct
  | derivedSubscribe (code : String) (t : Int)
  | derivedUnsubscribe (code : String) (t : Int)
deriving DecidableEq, Repr

/-- Test used by the VI-event handler of VICCLDMonitorService: the parsed
vi_type is one of the three activation names. -/
def isCascadeActivation (viGubun : String) : Bool :=
  viTypeName viGubun = "정적발동" || viTypeName viGubun = "동적발동"
    || viTypeName viGubun = "정적&동적"

/-- Model of one VI event reaching the VI-event handler of
VICCLDMonitorService (service_monitor_vi_ccld.py) on its default path (no
external VI callbacks registered, which otherwise take over and skip the
cascade entirely).  On an activation for a symbol with no live monitor and
a known market, start a new trade monitor (one derived subscribe) — the
pending stops are NOT consulted or cancelled.  On a non-activation
(release) for a symbol with a live monitor, pop the monitor and schedule
its stop 60 seconds later (the handler sleeps one minute and then stops
the popped monitor unconditionally).  All other cases do nothing. -/
def handleViEvent (marketKnown : String → Bool) (st : CascadeState)
    (refShcode viGubun : String) (t : Int) : CascadeState × List WireAct :=
  if isCascadeActivation viGubun then
    if dictContains refShcode st.monitors then (st, [])
    else if marketKnown refShcode then
      ({ monitors := dictInsert refShcode st.nextId st.monitors,
         nextId := st.nextId + 1,
         pendingStops := st.pendingStops },
       [WireAct.derivedSubscribe refShcode t])
    else (st, [])
  else
    match dictLookup refShcode st.monitors with
    | some monitorId =>
      ({ monitors := dictErase refShcode st.monitors,
         nextId := st.nextId,
         pendingStops := st.pendingStops ++ [(monitorId, refShcode, t + 60)] }, [])
    | none => (st, [])

/-- Fire every scheduled stop whose deadline has been reached by instant t;
each fires at its own deadline and issues the derived unsubscribe of its
symbol, with no check whether the symbol has re-activated since scheduling
(the sleeping handler holds the popped monitor and stops it regardless).
Returns the fired actions and the still-pending stops. -/
def fireDueStops (t : Int) : List (Nat × String × Int) →
    List WireAct × List (Nat × String × Int)
  | [] => ([], [])
  | (monitorId, code, fireAt) :: rest =>
    let r := fireDueStops t rest
    if fireAt ≤ t then (WireAct.derivedUnsubscribe code fireAt :: r.1, r.2)
    else (r.1, (monitorId, code, fireAt) :: r.2)

/-- Discrete-event run of the cascade controller over a time-ordered list
of inbound VI events (time, ref_shcode, vi_gubun): before each event the
stops whose 60-second sleeps have elapsed fire, then the event is handled;
after the last event every remaining scheduled stop fires at its own
deadline.  Returns the derived wire actions in order. -/
def runCascade (marketKnown : String → Bool) :
    CascadeState → List (Int × String × String) → List WireAct
  | st, [] => st.pendingStops.map (fun p => WireAct.derivedUnsubscribe p.2.1 p.2.2)
  | st, (t, code, gubun) :: rest =>
    let fired := fireDueStops t st.pendingStops
    let stepped := handleViEvent marketKnown
      { st with pendingStops := fired.2 } code gubun t
    fired.1 ++ stepped.2 ++ runCascade marketKnown stepped.1 rest

/-- Initial cascade-controller state: no monitors, no scheduled stops. -/
def initCascade : CascadeState := { monitors := [], nextId := 0, pendingStops := [] }

/-- Model of the delay slept by RetryManager.execute (websocket_base.py)
after its k-th failed attempt, for 1 ≤ k below the retry budget:
base_delay times 2 to the power (k - 1).  No cap of any kind is applied. -/
def retryExecuteDelay (baseDelay : ℚ) (currentRetry : ℕ) : ℚ :=
  baseDelay * 2 ^ (currentRetry - 1)

/-- Model of BaseWebSocket.calculate_reconnect_delay (websocket_base.py):
the configured base delay times 2 to the power (reconnection_count - 1),
capped at the hard-coded maximum of 30.0 seconds.  The exponent is an
integer: Python evaluates 2 to a negative power as a fraction. -/
def calculateReconnectDelay (reconnectDelay : ℚ) (reconnectionCount : ℤ) : ℚ :=
  min (reconnectDelay * 2 ^ (reconnectionCount - 1)) 30

/-- State of VIManager (vi_manager.py) relevant to subscription counting:
the running subscription_count, the active VI stocks inherited from
VIHandler, the stocks pending unsubscribe (symbol to scheduling instant),
and the stocks already unsubscribed. -/
structure VIManagerState where
  subscriptionCount : Int
  viActiveStocks : List (String × (ViData × Int))
  viPendingUnsubscribe : List (String × Int)
  unsubscribedStocks : List (String × (ViData × Int))
deriving DecidableEq, Repr

/-- Model of VIManager.subscribe_vi (vi_manager.py): refuse (returning
False, sending nothing, changing nothing) when subscription_count has
reached max_subscriptions; otherwise drop the symbol from the pending
unsubscribes, send the VI subscribe request, and increment the count only
when the send succeeds (send_vi_message returns False when the socket is
not connected or the send raises; that case leaves the count alone).
Returns the reported success, the new state, and the successful sends. -/
def subscribeVi (st : VIManagerState) (maxSubscriptions : Int) (stockCode : String)
    (sendSucceeds : Bool) : Bool × VIManagerState × List String :=
  if maxSubscriptions ≤ st.subscriptionCount then (false, st, [])
  else
    let st₁ := { st with viPendingUnsubscribe := dictErase stockCode st.viPendingUnsubscribe }
    if sendSucceeds then
      (true, { st₁ with subscriptionCount := st₁.subscriptionCount + 1 }, [stockCode])
    else (false, st₁, [])

/-- Model of VIManager.unsubscribe_vi (vi_manager.py): when the symbol is
neither active nor pending unsubscribe, report success and do nothing;
otherwise send the VI unsubscribe request and, when the send succeeds,
record the symbol as pending unsubscribe at the current instant, move its
active record (if any) to the unsubscribed stocks, and decrement
subscription_count clamped at zero; a failed send changes nothing.
Returns the reported success, the new state, and the successful sends. -/
def unsubscribeVi (st : VIManagerState) (stockCode : String) (now : Int)
    (sendSucceeds : Bool) : Bool × VIManagerState × List String :=
  if !(dictContains stockCode st.viActiveStocks)
      && !(dictContains stockCode st.viPendingUnsubscribe) then
    (true, st, [])
  else if sendSucceeds then
    let st₁ := { st with
      viPendingUnsubscribe := dictInsert stockCode now st.viPendingUnsubscribe }
    let st₂ :=
      match dictLookup stockCode st₁.viActiveStocks with
      | some record =>
        { st₁ with
          unsubscribedStocks := dictInsert stockCode record st₁.unsubscribedStocks,
          viActiveStocks := dictErase stockCode st₁.viActiveStocks }
      | none => st₁
    (true, { st₂ with subscriptionCount := max 0 (st₂.subscriptionCount - 1) }, [stockCode])
  else (false, st, [])

/-- Lookup of a key absent from the key list of an association list. -/
lemma dictLookup_eq_none_of_not_mem {V : Type} (k : String) (d : List (String × V))
    (h : k ∉ d.map Prod.fst) : dictLookup k d = none := by
  induction d with
  | nil => rfl
  | cons hd tl ih =>
    simp only [List.map_cons, List.mem_cons, not_or] at h
    simp only [dictLookup]
    rw [if_neg (fun e => h.1 (by simpa using e.symm))]
    exact ih h.2

/-- Deleting a freshly inserted key from a dict that did not contain it
restores the dict exactly. -/
lemma dictErase_dictInsert_of_not_contains {V : Type} (k : String) (v : V)
    (d : List (String × V)) (h : dictContains k d = false) :
    dictErase k (dictInsert k v d) = d := by
  induction d with
  | nil => simp [dictInsert, dictErase]
  | cons hd tl ih =>
    obtain ⟨k₀, v₀⟩ := hd
    simp only [dictContains, dictLookup] at h
    by_cases e : k₀ = k
    · rw [e] at h; simp at h
    · rw [if_neg e] at h
      simp only [dictInsert, if_neg e, dictErase]
      rw [ih h]

/-- After inserting a key into a dict with pairwise-distinct keys and then
deleting it, the key is gone. -/
lemma dictLookup_erase_insert_eq_none {V : Type} (k : String) (v : V)
    (d : List (String × V)) (h : (d.map Prod.fst).Nodup) :
    dictLookup k (dictErase k (dictInsert k v d)) = none := by
  induction d with
  | nil => simp [dictInsert, dictErase, dictLookup]
  | cons hd tl ih =>
    obtain ⟨k₀, v₀⟩ := hd
    simp only [List.map_cons, List.nodup_cons] at h
    by_cases e : k₀ = k
    · subst e
      simp only [dictInsert, if_pos rfl, dictErase, if_pos rfl]
      exact dictLookup_eq_none_of_not_mem _ _ h.1
    · simp only [dictInsert, if_neg e, dictErase, dictLookup]
      exact ih h.2

/-- Lookup after an insert of the same key yields the inserted value. -/
lemma dictLookup_dictInsert_self {V : Type} (k : String) (v : V)
    (d : List (String × V)) : dictLookup k (dictInsert k v d) = some v := by
  induction d with
  | nil => simp [dictInsert, dictLookup]
  | cons hd tl ih =>
    obtain ⟨k₀, v₀⟩ := hd
    by_cases e : k₀ = k
    · subst e; simp [dictInsert, dictLookup]
    · simp only [dictInsert, if_neg e, dictLookup]
      exact ih

/-- C1.  Replay completeness fails in the code: the replay loop in
WebSocketManager.connect destructures each subscription key split at
underscores into exactly two variables, and the channel codes this system
subscribes with (VI_, S3_, K3_) all end in an underscore, so their keys
split into three parts and the loop raises ValueError before sending
anything, aborting the whole replay.  Evaluated here at the registry
produced by subscribing the all-symbols VI feed: the key splits into three
parts and the replay aborts having re-sent nothing, although the registry
holds one desired subscription. -/
theorem replay_aborts_on_underscored_channel_key :
    pySplitUnderscore (subscriptionKey "VI_" "000000") = ["VI", "", "000000"] ∧
    (managerSubscribe ⟨"tok", [], true⟩ "VI_" "000000" 7 0 true
        false).state.subscriptions.length = 1 ∧
    replaySubscriptions
      (managerSubscribe ⟨"tok", [], true⟩ "VI_" "000000" 7 0 true
        false).state.subscriptions = ([], true) := by decide

/-- C2 counterexample.  Calling subscribe twice for the same key while
connected yields one subscription record but TWO wire sends, not one: the
second call overwrites the stored record and unconditionally re-sends the
subscribe request. -/
theorem second_subscribe_resends_wire_request :
    (managerSubscribe (managerSubscribe ⟨"tok", [], true⟩ "VI_" "000000" 7 0 true false).state
        "VI_" "000000" 7 1 true false).state.subscriptions.length = 1 ∧
    ((managerSubscribe ⟨"tok", [], true⟩ "VI_" "000000" 7 0 true false).sends ++
      (managerSubscribe (managerSubscribe ⟨"tok", [], true⟩ "VI_" "000000" 7 0 true false).state
        "VI_" "000000" 7 1 true false).sends).length = 2 ∧
    ¬ ((managerSubscribe ⟨"tok", [], true⟩ "VI_" "000000" 7 0 true false).sends ++
      (managerSubscribe (managerSubscribe ⟨"tok", [], true⟩ "VI_" "000000" 7 0 true false).state
        "VI_" "000000" 7 1 true false).sends).length = 1 := by decide

/-- C2 amended.  Subscribing twice for the same key while connected keeps
exactly one subscription record (the second call overwrites the first,
storing the latest callback and subscribe time) but performs one wire send
per call, two in total. -/
theorem subscribe_twice_one_record_two_sends (token trCode trKey : String) (cb : Nat)
    (t₁ t₂ : Int) :
    (managerSubscribe (managerSubscribe ⟨token, [], true⟩ trCode trKey cb t₁ true false).state
        trCode trKey cb t₂ true false).state.subscriptions =
      [(subscriptionKey trCode trKey,
        { message := subscribeMessage token trCode trKey, callback := cb,
          subscribeTime := t₂ })] ∧
    (managerSubscribe ⟨token, [], true⟩ trCode trKey cb t₁ true false).sends =
      [subscribeMessage token trCode trKey] ∧
    (managerSubscribe (managerSubscribe ⟨token, [], true⟩ trCode trKey cb t₁ true false).state
        trCode trKey cb t₂ true false).sends = [subscribeMessage token trCode trKey] := by
  simp [managerSubscribe, dictInsert]

/-- C9 counterexample.  When the key was already subscribed, a subscribe
whose wire send fails does NOT leave the subscriptions map as it was: the
new record overwrote the old one and the failure handler then deletes the
key outright, so the previously stored record is lost. -/
theorem failed_resubscribe_drops_existing_record :
    (managerSubscribe
        (managerSubscribe ⟨"tok", [], true⟩ "VI_" "000000" 7 0 true false).state
        "VI_" "000000" 8 1 true true).state.subscriptions = [] ∧
    (managerSubscribe ⟨"tok", [], true⟩ "VI_" "000000" 7 0 true
        false).state.subscriptions ≠ [] := by decide

/-- C9 amended.  A subscribe whose send fails while connected always
raises and always deletes the key it stored: when the key was not
previously subscribed this restores the subscriptions map exactly, but
when the key was already subscribed the old record is deleted too, leaving
the key absent. -/
theorem failed_subscribe_removes_key (st : ManagerState) (trCode trKey : String)
    (cb : Nat) (now : Int) (hkeys : (st.subscriptions.map Prod.fst).Nodup) :
    (dictContains (subscriptionKey trCode trKey) st.subscriptions = false →
      (managerSubscribe st trCode trKey cb now true true).state.subscriptions
        = st.subscriptions) ∧
    dictContains (subscriptionKey trCode trKey)
      (managerSubscribe st trCode trKey cb now true true).state.subscriptions = false ∧
    (managerSubscribe st trCode trKey cb now true true).raised = true := by
  refine ⟨fun h => ?_, ?_, rfl⟩
  · show dictErase (subscriptionKey trCode trKey)
        (dictInsert (subscriptionKey trCode trKey)
          { message := subscribeMessage st.token trCode trKey, callback := cb,
            subscribeTime := now } st.subscriptions) = st.subscriptions
    exact dictErase_dictInsert_of_not_contains _ _ _ h
  · show dictContains (subscriptionKey trCode trKey)
        (dictErase (subscriptionKey trCode trKey)
          (dictInsert (subscriptionKey trCode trKey)
            { message := subscribeMessage st.token trCode trKey, callback := cb,
              subscribeTime := now } st.subscriptions)) = false
    unfold dictContains
    rw [dictLookup_erase_insert_eq_none _ _ _ hkeys]
    rfl

/-- C9 witness: the amended statement applied to a state holding one prior
subscription for the same key and to the empty state. -/
theorem failed_subscribe_removes_key_witness :
    (dictContains (subscriptionKey "VI_" "000000") ([] : List (String × SubscriptionRecord))
        = false →
      (managerSubscribe ⟨"tok", [], true⟩ "VI_" "000000" 8 1 true true).state.subscriptions
        = []) ∧
    dictContains (subscriptionKey "VI_" "000000")
      (managerSubscribe ⟨"tok", [], true⟩ "VI_" "000000" 8 1 true true).state.subscriptions
        = false ∧
    (managerSubscribe ⟨"tok", [], true⟩ "VI_" "000000" 8 1 true true).raised = true :=
  failed_subscribe_removes_key ⟨"tok", [], true⟩ "VI_" "000000" 8 1 (by decide)

/-- Unsubscribe-all loop of WebSocketManager.stop on a key list whose head
is not exactly two characters: the for-statement unpacking of the key
string raises ValueError at once. -/
lemma stopUnsubscribeLoop_bad_head (connected : Bool) (st : ManagerState) (k : String)
    (rest : List String) (h : k.data.length ≠ 2) :
    stopUnsubscribeLoop connected st (k :: rest) = (st, [], true) := by
  rcases hd : k.data with _ | ⟨c₁, _ | ⟨c₂, _ | ⟨c₃, tl⟩⟩⟩
  · simp [stopUnsubscribeLoop, hd]
  · simp [stopUnsubscribeLoop, hd]
  · exact absurd (by rw [hd]; rfl) h
  · simp [stopUnsubscribeLoop, hd]

/-- C8 counterexample.  A running manager holding the all-symbols VI
subscription: stop() raises ValueError while unpacking the subscription
key string into two loop variables and therefore never closes the client
connection, contradicting the claim that stop() closes the transport;
the subscriptions map happens to survive only because the crash precedes
the clearing code. -/
theorem stop_raises_before_closing_transport :
    (managerStop ⟨"tok", [(subscriptionKey "VI_" "000000",
        { message := subscribeMessage "tok" "VI_" "000000", callback := 7,
          subscribeTime := 0 })], true⟩ true).raised = true ∧
    (managerStop ⟨"tok", [(subscriptionKey "VI_" "000000",
        { message := subscribeMessage "tok" "VI_" "000000", callback := 7,
          subscribeTime := 0 })], true⟩ true).clientClosed = false := by decide

/-- C8 amended.  stop() gives no frame guarantee on the desired state: on
a running manager whose first subscription key is not exactly two
characters (every key this system forms is longer), stop() clears only the
is_running flag and then raises ValueError from the key-unpacking loop,
leaving the transport open and the subscriptions map untouched; on a
running manager with no subscriptions it completes, closes the transport,
and leaves the subscriptions map empty (the code path that completes
always clears the map, so a later start() resumes with no subscriptions). -/
theorem stop_crashes_or_clears (st : ManagerState) (connected : Bool)
    (hrun : st.isRunning = true) :
    (∀ k r rest, st.subscriptions = (k, r) :: rest → k.data.length ≠ 2 →
      managerStop st connected =
        { state := { st with isRunning := false }, sends := [],
          clientClosed := false, raised := true }) ∧
    (st.subscriptions = [] →
      managerStop st connected =
        { state := { st with isRunning := false, subscriptions := [] }, sends := [],
          clientClosed := true, raised := false }) := by
  constructor
  · intro k r rest hsubs hk
    have hmap : (({ st with isRunning := false } : ManagerState).subscriptions.map Prod.fst)
        = k :: rest.map Prod.fst := by simp [hsubs]
    have hloop : stopUnsubscribeLoop connected { st with isRunning := false }
        (({ st with isRunning := false } : ManagerState).subscriptions.map Prod.fst)
        = ({ st with isRunning := false }, [], true) := by
      rw [hmap]
      exact stopUnsubscribeLoop_bad_head _ _ _ _ hk
    simp [managerStop, hrun, hloop]
  · intro hsubs
    simp [managerStop, hrun, hsubs, stopUnsubscribeLoop]

/-- C8 witness: the amended statement evaluated on a manager holding the
all-symbols VI subscription (the crash branch) and on a manager holding
nothing (the completing branch). -/
theorem stop_crashes_or_clears_witness :
    managerStop ⟨"tok", [(subscriptionKey "VI_" "000000",
        { message := subscribeMessage "tok" "VI_" "000000", callback := 7,
          subscribeTime := 0 })], true⟩ true =
      { state := ⟨"tok", [(subscriptionKey "VI_" "000000",
          { message := subscribeMessage "tok" "VI_" "000000", callback := 7,
            subscribeTime := 0 })], false⟩, sends := [],
        clientClosed := false, raised := true } ∧
    managerStop ⟨"tok", [], true⟩ true =
      { state := ⟨"tok", [], false⟩, sends := [], clientClosed := true, raised := false } :=
  ⟨(stop_crashes_or_clears _ true rfl).1 _ _ _ rfl (by decide),
   (stop_crashes_or_clears _ true rfl).2 rfl⟩

/-- C6 counterexample.  An inbound message whose header carries the
non-success response code IGW00121 is not routed to any error callback:
the client wrapper drops it before invoking any registered handler (error
handlers included), and the manager — were the message to reach it — logs
it and enqueues the raw data as a plain message event, not an error
event. -/
theorem error_response_reaches_no_error_callback :
    (clientHandleMessage [5] true (some "IGW00121")).errorHandlerCalls = [] ∧
    (clientHandleMessage [5] true (some "IGW00121")).messageHandlerCalls = [] ∧
    managerHandleMessage ⟨[1], [2], [3], [4], [5], [6], [7], [8], [9]⟩ "VI_" ""
        (some "IGW00121") = ([], [QueueTag.message]) ∧
    QueueTag.message ≠ QueueTag.errorTag := by decide

/-- C6 amended.  An inbound message whose header carries a non-success
response code is never delivered as data and updates no state: the client
wrapper logs the error and drops it without invoking any registered
handler (so nothing downstream — per-channel callbacks, VI state, derived
subscriptions — can see it), and the manager handler, given such a
message, executes no per-channel callback and merely enqueues the raw
data as a generic message event. -/
theorem error_response_never_dispatched_as_data (cbs : ChannelCallbacks)
    (handlers : List Nat) (headerTrCd bodyTrCd r : String) (h : r ≠ "00000") :
    managerHandleMessage cbs headerTrCd bodyTrCd (some r) = ([], [QueueTag.message]) ∧
    clientHandleMessage handlers true (some r) =
      { messageHandlerCalls := [], errorHandlerCalls := [] } := by
  exact ⟨rfl, by simp [clientHandleMessage, h]⟩

/-- C6 witness: the amended statement at the concrete non-success response
code IGW00121 with one registered handler per channel. -/
theorem error_response_never_dispatched_as_data_witness :
    managerHandleMessage ⟨[1], [2], [3], [4], [5], [6], [7], [8], [9]⟩ "S3_" ""
        (some "IGW00121") = ([], [QueueTag.message]) ∧
    clientHandleMessage [5] true (some "IGW00121") =
      { messageHandlerCalls := [], errorHandlerCalls := [] } :=
  error_response_never_dispatched_as_data ⟨[1], [2], [3], [4], [5], [6], [7], [8], [9]⟩
    [5] "S3_" "" "IGW00121" (by decide)

/-- C4.  Duration computation: for a symbol tracked as active with recorded
activation time t₀, processing a VI release message at time t₁ reports a
duration of t₁ - t₀ seconds — both in VIHandler (keyed by shcode) and in
the VIMonitorService status update (keyed by ref_shcode). -/
theorem vi_release_reports_elapsed_duration (active : List (String × (ViData × Int)))
    (mon : List (String × MonitorViRecord)) (d : ViData) (stored : ViData)
    (rec : MonitorViRecord) (t₀ t₁ : Int)
    (hrel : d.viGubun = "0")
    (hact : dictLookup d.shcode active = some (stored, t₀))
    (hmon : dictLookup d.refShcode mon = some rec)
    (hrec : rec.activationTime = some t₀) :
    (processViData active d t₁).2 =
      some { data := stored, activationTime := t₀, releaseTime := t₁,
             duration := t₁ - t₀ } ∧
    (updateViStatus mon d t₁).2 = some (t₁ - t₀) := by
  constructor
  · simp [processViData, viStatusOf, hrel, hact]
  · simp [updateViStatus, hrel, hmon, hrec]

/-- C4 witness: a symbol activated at time 100 and released at time 160
reports a duration of 60 seconds in both handlers. -/
theorem vi_release_reports_elapsed_duration_witness :
    (processViData [("005930", (⟨"2", "", "", "", "005930", "005930", "", ""⟩, 100))]
        ⟨"0", "", "", "", "005930", "005930", "", ""⟩ 160).2 =
      some { data := ⟨"2", "", "", "", "005930", "005930", "", ""⟩, activationTime := 100,
             releaseTime := 160, duration := 60 } ∧
    (updateViStatus [("005930",
        { data := ⟨"2", "", "", "", "005930", "005930", "", ""⟩, activationTime := some 100 })]
        ⟨"0", "", "", "", "005930", "005930", "", ""⟩ 160).2 = some 60 :=
  vi_release_reports_elapsed_duration
    [("005930", (⟨"2", "", "", "", "005930", "005930", "", ""⟩, 100))]
    [("005930",
      { data := ⟨"2", "", "", "", "005930", "005930", "", ""⟩, activationTime := some 100 })]
    ⟨"0", "", "", "", "005930", "005930", "", ""⟩
    ⟨"2", "", "", "", "005930", "005930", "", ""⟩
    { data := ⟨"2", "", "", "", "005930", "005930", "", ""⟩, activationTime := some 100 }
    100 160 rfl (by decide) (by decide) rfl

/-- C5 counterexample.  In VIHandler, an activation message for a symbol
that is already active is NOT a no-op: the active record is overwritten
and its recorded activation time refreshed (here from 0 to 5). -/
theorem duplicate_activation_refreshes_activation_time :
    (processViData [("005930", (⟨"2", "", "", "", "005930", "005930", "", ""⟩, 0))]
        ⟨"2", "", "", "", "005930", "005930", "", ""⟩ 5).1 =
      [("005930", (⟨"2", "", "", "", "005930", "005930", "", ""⟩, 5))] ∧
    [("005930", ((⟨"2", "", "", "", "005930", "005930", "", ""⟩ : ViData), (5 : Int)))] ≠
      [("005930", (⟨"2", "", "", "", "005930", "005930", "", ""⟩, 0))] := by decide

/-- C5 amended.  Duplicate release messages are no-ops everywhere (a
release for a symbol that is not tracked as active changes nothing in
VIHandler, in the VIMonitorService update, and in the strategy), and in
the strategy an activation for an already-active symbol is a no-op too;
but VIHandler (and likewise the VIMonitorService update) overwrites the
active record on a duplicate activation, refreshing its recorded
activation time to the current instant. -/
theorem duplicate_vi_transitions_behaviour (active : List (String × (ViData × Int)))
    (mon : List (String × MonitorViRecord)) (sa : List (String × Int)) (d : ViData)
    (trCd stockCode : String) (now : Int) :
    (d.viGubun = "0" → dictLookup d.shcode active = none →
      processViData active d now = (active, none)) ∧
    (d.viGubun = "0" → dictLookup d.refShcode mon = none →
      updateViStatus mon d now = (mon, none)) ∧
    (d.viGubun = "0" →
      strategyProcessViData sa d.viGubun stockCode trCd now = (sa, [])) ∧
    (dictContains stockCode sa = true →
      strategyProcessViData sa d.viGubun stockCode trCd now = (sa, [])) ∧
    (d.viGubun ≠ "0" →
      dictLookup d.shcode (processViData active d now).1 = some (d, now)) := by
  refine ⟨fun hrel hnone => ?_, fun hrel hnone => ?_, fun hrel => ?_, fun hmem => ?_,
    fun hact => ?_⟩
  · simp [processViData, viStatusOf, hrel, hnone]
  · simp [updateViStatus, hrel, hnone]
  · simp [strategyProcessViData, hrel]
  · simp [strategyProcessViData, hmem]
  · simp only [processViData, viStatusOf, if_neg hact]
    rw [if_neg (by decide : ¬ ("발동" : String) = "해제")]
    exact dictLookup_dictInsert_self _ _ _

/-- C5 witness: the amended statement evaluated on concrete states — a
release for an untracked symbol changes nothing in any of the three
handlers, an activation for an already-active symbol changes nothing in
the strategy, and a duplicate activation in VIHandler refreshes the
recorded activation time from 0 to 5. -/
theorem duplicate_vi_transitions_behaviour_witness :
    processViData [] ⟨"0", "", "", "", "005930", "005930", "", ""⟩ 5 = ([], none) ∧
    updateViStatus [] ⟨"0", "", "", "", "005930", "005930", "", ""⟩ 5 = ([], none) ∧
    strategyProcessViData [("005930", 0)] "0" "005930" "S3_" 5 = ([("005930", 0)], []) ∧
    strategyProcessViData [("005930", 0)] "2" "005930" "S3_" 5 = ([("005930", 0)], []) ∧
    dictLookup "005930"
      (processViData [("005930", (⟨"2", "", "", "", "005930", "005930", "", ""⟩, 0))]
        ⟨"2", "", "", "", "005930", "005930", "", ""⟩ 5).1 =
      some (⟨"2", "", "", "", "005930", "005930", "", ""⟩, 5) :=
  ⟨(duplicate_vi_transitions_behaviour [] [] [("005930", 0)]
      ⟨"0", "", "", "", "005930", "005930", "", ""⟩ "S3_" "005930" 5).1 rfl rfl,
   (duplicate_vi_transitions_behaviour [] [] [("005930", 0)]
      ⟨"0", "", "", "", "005930", "005930", "", ""⟩ "S3_" "005930" 5).2.1 rfl rfl,
   (duplicate_vi_transitions_behaviour [] [] [("005930", 0)]
      ⟨"0", "", "", "", "005930", "005930", "", ""⟩ "S3_" "005930" 5).2.2.1 rfl,
   (duplicate_vi_transitions_behaviour
      [("005930", (⟨"2", "", "", "", "005930", "005930", "", ""⟩, 0))] []
      [("005930", 0)] ⟨"2", "", "", "", "005930", "005930", "", ""⟩
      "S3_" "005930" 5).2.2.2.1 (by decide),
   (duplicate_vi_transitions_behaviour
      [("005930", (⟨"2", "", "", "", "005930", "005930", "", ""⟩, 0))] []
      [("005930", 0)] ⟨"2", "", "", "", "005930", "005930", "", ""⟩
      "S3_" "005930" 5).2.2.2.2 (by decide)⟩

/-- C3 counterexample.  Activation of 005930 at t = 0, release at t = 10
(scheduling the delayed stop for t = 70), re-activation at t = 20 — well
inside the 60-second grace period.  The claim requires zero derived
unsubscribes to fire for that cycle; the code fires the scheduled stop at
t = 70 regardless, because nothing cancels it on re-activation. -/
theorem reactivation_does_not_cancel_pending_stop :
    runCascade (fun _ => true) initCascade
        [(0, "005930", "1"), (10, "005930", "0"), (20, "005930", "1")] =
      [WireAct.derivedSubscribe "005930" 0, WireAct.derivedSubscribe "005930" 20,
       WireAct.derivedUnsubscribe "005930" 70] ∧
    WireAct.derivedUnsubscribe "005930" 70 ∈
      runCascade (fun _ => true) initCascade
        [(0, "005930", "1"), (10, "005930", "0"), (20, "005930", "1")] := by decide

/-- C3 amended.  For a symbol with a known market on the default (no
external VI callback) path: one activation followed by one release yields
exactly one derived subscribe, at activation, and exactly one derived
unsubscribe, firing at release time + 60 seconds; and when the symbol
re-activates within that grace window, exactly one new derived subscribe
is issued for the new cycle while the scheduled stop of the old monitor
still fires at release time + 60 seconds — it is never cancelled, so one
unsubscribe (not zero) fires despite the re-activation. -/
theorem cascade_grace_unsubscribe_behaviour (marketKnown : String → Bool) (s : String)
    (t₀ t₁ t₂ : Int) (hknown : marketKnown s = true) (h₂ : t₂ < t₁ + 60) :
    runCascade marketKnown initCascade [(t₀, s, "1"), (t₁, s, "0")] =
      [WireAct.derivedSubscribe s t₀, WireAct.derivedUnsubscribe s (t₁ + 60)] ∧
    runCascade marketKnown initCascade [(t₀, s, "1"), (t₁, s, "0"), (t₂, s, "1")] =
      [WireAct.derivedSubscribe s t₀, WireAct.derivedSubscribe s t₂,
       WireAct.derivedUnsubscribe s (t₁ + 60)] := by
  have hlt : ¬ (t₁ + 60 ≤ t₂) := by omega
  constructor
  · simp [runCascade, fireDueStops, handleViEvent, initCascade, hknown,
      isCascadeActivation, viTypeName, dictContains, dictLookup, dictInsert, dictErase]
  · simp [runCascade, fireDueStops, handleViEvent, initCascade, hknown, hlt,
      isCascadeActivation, viTypeName, dictContains, dictLookup, dictInsert, dictErase]

/-- C3 witness: the amended statement on the concrete timeline used by the
counterexample (activation 0, release 10, re-activation 20). -/
theorem cascade_grace_unsubscribe_behaviour_witness :
    runCascade (fun _ => true) initCascade [(0, "005930", "1"), (10, "005930", "0")] =
      [WireAct.derivedSubscribe "005930" 0, WireAct.derivedUnsubscribe "005930" 70] ∧
    runCascade (fun _ => true) initCascade
        [(0, "005930", "1"), (10, "005930", "0"), (20, "005930", "1")] =
      [WireAct.derivedSubscribe "005930" 0, WireAct.derivedSubscribe "005930" 20,
       WireAct.derivedUnsubscribe "005930" 70] :=
  cascade_grace_unsubscribe_behaviour (fun _ => true) "005930" 0 10 20 rfl (by decide)

/-- C7 counterexample.  With the configured default base delay of 5
seconds, the delay slept by RetryManager.execute after its 4th failed
attempt is 5 * 2³ = 40 seconds: it exceeds the 30-second cap (RetryManager
applies no cap at all) and differs from the claimed min(5 * 2⁴, 30) = 30. -/
theorem retry_delay_exceeds_cap :
    retryExecuteDelay 5 4 = 40 ∧ (30 : ℚ) < retryExecuteDelay 5 4 ∧
    retryExecuteDelay 5 4 ≠ min ((5 : ℚ) * 2 ^ (4 : ℕ)) 30 := by
  norm_num [retryExecuteDelay]

/-- C7 amended.  The two backoff computations in websocket_base.py use
exponent n - 1, not n: calculate_reconnect_delay returns the base delay
times 2 to the (reconnection_count - 1), capped at the hard-coded 30.0
seconds — and so never exceeds 30 — while the delay slept by
RetryManager.execute after its k-th failed attempt is the base delay times
2 to the (k - 1) with no cap of any kind. -/
theorem reconnect_delay_formula_and_cap (base : ℚ) (n : ℤ) (k : ℕ) :
    calculateReconnectDelay base n ≤ 30 ∧
    calculateReconnectDelay base n = min (base * 2 ^ (n - 1)) 30 ∧
    retryExecuteDelay base k = base * 2 ^ (k - 1) :=
  ⟨min_le_right _ _, rfl, rfl⟩

/-- C10.  Subscription-count bound of VIManager: starting from any state
whose count lies between 0 and max_subscriptions, both subscribe_vi and
unsubscribe_vi keep it there; subscribe_vi returns False, sends nothing
and changes nothing once the count has reached max_subscriptions; and
unsubscribe_vi clamps its decrement at zero. -/
theorem vi_subscription_count_bounds (st : VIManagerState) (maxSubs : Int)
    (code : String) (now : Int) (ok : Bool)
    (h₀ : 0 ≤ st.subscriptionCount) (h₁ : st.subscriptionCount ≤ maxSubs) :
    (0 ≤ (subscribeVi st maxSubs code ok).2.1.subscriptionCount ∧
      (subscribeVi st maxSubs code ok).2.1.subscriptionCount ≤ maxSubs) ∧
    (0 ≤ (unsubscribeVi st code now ok).2.1.subscriptionCount ∧
      (unsubscribeVi st code now ok).2.1.subscriptionCount ≤ maxSubs) ∧
    (maxSubs ≤ st.subscriptionCount → subscribeVi st maxSubs code ok = (false, st, [])) ∧
    (st.subscriptionCount = 0 →
      (unsubscribeVi st code now ok).2.1.subscriptionCount = 0) := by
  refine ⟨?_, ?_, fun hfull => ?_, fun hzero => ?_⟩
  · unfold subscribeVi
    split
    · exact ⟨h₀, h₁⟩
    · split
      · simp only
        omega
      · simp only
        exact ⟨h₀, h₁⟩
  · unfold unsubscribeVi
    split
    · exact ⟨h₀, h₁⟩
    · split
      · simp only
        cases hdl : dictLookup code st.viActiveStocks <;> simp only [hdl] <;> omega
      · exact ⟨h₀, h₁⟩
  · unfold subscribeVi
    rw [if_pos hfull]
  · unfold unsubscribeVi
    split
    · exact hzero
    · split
      · simp only
        cases hdl : dictLookup code st.viActiveStocks <;> simp only [hdl] <;> omega
      · exact hzero

/-- C10 witness: the bound statement evaluated on a fresh VIManager state
(count 0) against the configured maximum of 100 subscriptions. -/
theorem vi_subscription_count_bounds_witness :
    (0 ≤ (subscribeVi ⟨0, [], [], []⟩ 100 "005930" true).2.1.subscriptionCount ∧
      (subscribeVi ⟨0, [], [], []⟩ 100 "005930" true).2.1.subscriptionCount ≤ 100) ∧
    (0 ≤ (unsubscribeVi ⟨0, [], [], []⟩ "005930" 0 true).2.1.subscriptionCount ∧
      (unsubscribeVi ⟨0, [], [], []⟩ "005930" 0 true).2.1.subscriptionCount ≤ 100) ∧
    ((100 : Int) ≤ (0 : Int) →
      subscribeVi ⟨0, [], [], []⟩ 100 "005930" true = (false, ⟨0, [], [], []⟩, [])) ∧
    ((0 : Int) = 0 →
      (unsubscribeVi ⟨0, [], [], []⟩ "005930" 0 true).2.1.subscriptionCount = 0) :=
  vi_subscription_count_bounds ⟨0, [], [], []⟩ 100 "005930" 0 true (by decide) (by decide)
